import Mathlib

/-
Verification of the DuckGuard rule-execution and validation-statistics core.

This file gives a shallow embedding of the parts of the `duckguard` Python
package that the verified properties are about:

  * `src/duckguard/rules/schema.py`   -- the Check / RuleSet data model
  * `src/duckguard/rules/executor.py` -- RuleExecutor, CheckResult, ExecutionResult
  * `src/duckguard/core/engine.py`    -- per-column and batched column statistics
  * `src/duckguard/core/column.py`    -- Column validation methods, KS drift test
  * `src/duckguard/core/dataset.py`   -- Dataset.reconcile

Modelling conventions:

  * Python numbers (ints and floats) are embedded as exact rationals (`ℚ`) or
    integers (`ℤ`).  The floating-point results singled out by the
    specification (exactly 100.0, 0.0 and 1.0) are exact in IEEE arithmetic at
    the relevant inputs, so nothing is lost at those points.
  * SQL queries are embedded by their set semantics over list-based tables: a
    column is a `List (Option v)` (NULL = `none`), `COUNT`, `COUNT(DISTINCT)`,
    `MIN`, `MAX` and `WHERE`-filtered counts are the corresponding list
    operations.
  * The executor is embedded over an oracle view of the engine: each engine
    query a check handler performs is a field of type `Except String _`, an
    `Except.error` value representing the query (or regex, or cast) raising an
    exception with the given text.  This captures exactly the behaviour the
    executor can observe through its try/except blocks.
  * Fields that only matter for presentation or debugging (timestamps,
    `details` dictionaries, `failed_rows` samples, mismatch samples) are
    omitted; no verified property mentions them.
  * Python `dict`s that the code iterates in insertion order are embedded as
    association lists (`List (key × value)`).
-/

namespace DuckGuard

/-! ## Rule schema (`src/duckguard/rules/schema.py`) -/

/-- Severity levels for rule violations (`schema.Severity`). -/
inductive Severity where
  | error
  | warning
  | info
deriving DecidableEq, Repr

/-- Types of validation checks (`schema.CheckType`). -/
inductive CheckType where
  | not_null
  | null_percent
  | unique
  | unique_percent
  | no_duplicates
  | range
  | between
  | min
  | max
  | positive
  | negative
  | non_negative
  | pattern
  | length
  | min_length
  | max_length
  | allowed_values
  | isin
  | not_in
  | type
  | semantic_type
  | mean
  | stddev
  | anomaly
  | row_count
  | custom_sql
deriving DecidableEq, Repr

/-- Python values carried in `Check.value` and in result fields (`Any` in the
source): numbers (embedded as exact rationals), strings, lists, and `None`. -/
inductive CVal where
  | num (q : ℚ)
  | str (s : String)
  | list (l : List CVal)
  | noneV

/-- Numeric view of a `CVal`, used where the source compares a statistic
against `check.value`.  Non-numeric values yield `none` (Python would raise a
`TypeError` on an ordered comparison there, which the executor's try/except
turns into a failing result; no verified property depends on that corner). -/
def CVal.asNum : CVal → Option ℚ
  | .num q => some q
  | _ => none

/-- Rendering of a `CVal` into message text (approximates Python `str`). -/
def CVal.render : CVal → String
  | .num q => toString q
  | .str s => s
  | .list l => "[" ++ String.intercalate ", " (l.attach.map (fun x => CVal.render x.1)) ++ "]"
  | .noneV => "None"
decreasing_by
  simp_wf
  have := List.sizeOf_lt_of_mem x.2
  omega

/-- A single validation check (`schema.Check`).  The `params` dict is embedded
as an association list; only the string-valued `pattern_name` entry is ever
read by the executor. -/
structure Check where
  type : CheckType
  value : CVal := .noneV
  operator : String := "="
  severity : Severity := .error
  message : Option String := none
  enabled : Bool := true
  params : List (String × String) := []

/-- Rules for a specific column (`schema.ColumnRules`). -/
structure ColumnRules where
  name : String
  checks : List Check := []
  semantic_type : Option String := none
  description : Option String := none
  tags : List String := []

/-- Table-level rules (`schema.TableRules`). -/
structure TableRules where
  checks : List Check := []

/-- A complete set of validation rules (`schema.RuleSet`).  `columns` is a
Python dict iterated in insertion order, embedded as an association list. -/
structure RuleSet where
  source : Option String := none
  name : Option String := none
  version : String := "1.0"
  description : Option String := none
  columns : List (String × ColumnRules) := []
  table : TableRules := {}

/-- Built-in regex patterns for common validations (`schema.BUILTIN_PATTERNS`). -/
def BUILTIN_PATTERNS : List (String × String) :=
  [("email", "^[\\w\\.\\-\\+]+@[\\w\\.\\-]+\\.[a-zA-Z]\x7b2,\x7d$"),
   ("phone", "^\\+?[\\d\\s\\-\\(\\)]\x7b10,\x7d$"),
   ("uuid", "^[0-9a-fA-F]\x7b8\x7d-[0-9a-fA-F]\x7b4\x7d-[0-9a-fA-F]\x7b4\x7d-[0-9a-fA-F]\x7b4\x7d-[0-9a-fA-F]\x7b12\x7d$"),
   ("url", "^https?://[\\w\\.\\-]+(/[\\w\\.\\-\\?=&%]*)?$"),
   ("ip_address", "^\\d\x7b1,3\x7d\\.\\d\x7b1,3\x7d\\.\\d\x7b1,3\x7d\\.\\d\x7b1,3\x7d$"),
   ("ipv6", "^([0-9a-fA-F]\x7b1,4\x7d:)\x7b7\x7d[0-9a-fA-F]\x7b1,4\x7d$"),
   ("date_iso", "^\\d\x7b4\x7d-\\d\x7b2\x7d-\\d\x7b2\x7d$"),
   ("datetime_iso", "^\\d\x7b4\x7d-\\d\x7b2\x7d-\\d\x7b2\x7d[T ]\\d\x7b2\x7d:\\d\x7b2\x7d:\\d\x7b2\x7d"),
   ("ssn", "^\\d\x7b3\x7d-\\d\x7b2\x7d-\\d\x7b4\x7d$"),
   ("zip_us", "^\\d\x7b5\x7d(-\\d\x7b4\x7d)?$"),
   ("credit_card", "^\\d\x7b4\x7d[\\s\\-]?\\d\x7b4\x7d[\\s\\-]?\\d\x7b4\x7d[\\s\\-]?\\d\x7b4\x7d$"),
   ("slug", "^[a-z0-9]+(?:-[a-z0-9]+)*$"),
   ("alpha", "^[a-zA-Z]+$"),
   ("alphanumeric", "^[a-zA-Z0-9]+$"),
   ("numeric", "^-?\\d+\\.?\\d*$")]

/-! ## Operator comparison (`executor.RuleExecutor._compare`) -/

/-- The comparison operators `RuleExecutor._compare` knows about (the keys of
its `comparisons` dict). -/
def knownOperators : List String :=
  ["=", "==", "!=", "<>", "<", ">", "<=", ">="]

/-- `RuleExecutor._compare(actual, expected, operator)`:
`None` on either side yields `False`; otherwise the operator is looked up in
the `comparisons` dict, defaulting to the `"="` (equality) comparison for an
unknown operator. -/
def compareOp (actual expected : Option ℚ) (operator : String) : Bool :=
  match actual, expected with
  | none, _ => false
  | _, none => false
  | some a, some e =>
    if operator = "=" then a == e
    else if operator = "==" then a == e
    else if operator = "!=" then a != e
    else if operator = "<>" then a != e
    else if operator = "<" then decide (a < e)
    else if operator = ">" then decide (a > e)
    else if operator = "<=" then decide (a ≤ e)
    else if operator = ">=" then decide (a ≥ e)
    else a == e

/-! ## Column statistics (`src/duckguard/core/engine.py`)

A column of the tabular source is a `List (Option V)` (SQL NULL = `none`);
the value type `V` is kept abstract (ordered, decidable equality) since the
engine's aggregates only compare and count.  Percentages are exact rationals.
The column name only enters human-readable messages and SQL aliases, which do
not affect any query result; they are omitted at this layer. -/

/-- A single column's cells, in row order (`none` = SQL NULL). -/
abbrev ColVals (V : Type) := List (Option V)

/-- The statistics dict produced by `DuckGuardEngine.get_column_stats` /
`get_all_column_stats` for one column. -/
structure ColStats (V : Type) where
  total_count : ℤ
  non_null_count : ℤ
  null_count : ℤ
  null_percent : ℚ
  unique_count : ℤ
  unique_percent : ℚ
  min_value : Option V
  max_value : Option V

section EngineStats

variable {V : Type} [LinearOrder V] [DecidableEq V]

/-- The non-NULL cells of a column, in row order. -/
def nonNullValues (vs : ColVals V) : List V := vs.filterMap id

/-- SQL `COUNT(col)`: number of non-NULL cells. -/
def sqlCountCol (vs : ColVals V) : ℤ := (nonNullValues vs).length

/-- SQL `COUNT(DISTINCT col)`: number of distinct non-NULL values. -/
def sqlCountDistinct (vs : ColVals V) : ℤ := (nonNullValues vs).dedup.length

/-- SQL `MIN(col)`: NULL on an empty or all-NULL column. -/
def sqlMin (vs : ColVals V) : Option V := (nonNullValues vs).min?

/-- SQL `MAX(col)`: NULL on an empty or all-NULL column. -/
def sqlMax (vs : ColVals V) : Option V := (nonNullValues vs).max?

/-- Assembly of the per-column statistics dict from the aggregate row, as in
`DuckGuardEngine.get_column_stats`: `null_count` is `COUNT(*) - COUNT(col)`,
and both percentages divide by `total` only when `total > 0`. -/
def columnStats (vs : ColVals V) : ColStats V :=
  let total : ℤ := vs.length
  let non_null := sqlCountCol vs
  let null_count := total - non_null
  let unique_count := sqlCountDistinct vs
  { total_count := total
    non_null_count := non_null
    null_count := null_count
    null_percent := if total > 0 then (null_count : ℚ) / (total : ℚ) * 100 else 0
    unique_count := unique_count
    unique_percent := if total > 0 then (unique_count : ℚ) / (total : ℚ) * 100 else 0
    min_value := sqlMin vs
    max_value := sqlMax vs }

/-- A tabular source: a schema (column names) and rows aligned with it. -/
structure Table (V : Type) where
  schema : List String
  rows : List (List (Option V))

/-- The cells of one named column.  A name outside the schema would make the
engine's SQL raise a binder error in every query that mentions it; it is
modelled uniformly as an all-NULL column (both statistics paths treat it
identically, which is all the verified properties need). -/
def Table.columnVals (t : Table V) (c : String) : ColVals V :=
  match t.schema.indexOf? c with
  | some i => t.rows.map (fun r => r.getD i none)
  | none => t.rows.map (fun _ => none)

/-- `DuckGuardEngine.get_column_stats(source, column)`: one single-column
aggregate query plus dict assembly. -/
def get_column_stats (t : Table V) (column : String) : ColStats V :=
  columnStats (t.columnVals column)

/-- One cell of the batched wide aggregate row: an integer count or a
column-typed MIN/MAX value. -/
inductive AggCell (V : Type) where
  | int (n : ℤ)
  | val (x : Option V)

/-- The four aggregate cells the batched query computes per column
(`COUNT(col)`, `COUNT(DISTINCT col)`, `MIN(col)`, `MAX(col)`). -/
def colAggCells (vs : ColVals V) : List (AggCell V) :=
  [.int (sqlCountCol vs), .int (sqlCountDistinct vs), .val (sqlMin vs), .val (sqlMax vs)]

/-- The single wide result row of `get_all_column_stats`'s one query:
`COUNT(*)` followed by four aggregate cells per requested column. -/
def wideRow (t : Table V) (columns : List String) : List (AggCell V) :=
  AggCell.int t.rows.length :: columns.flatMap (fun c => colAggCells (t.columnVals c))

/-- Per-column stats assembly in `get_all_column_stats`'s Python loop:
`null_count = total - non_null`, percentages guarded by `total > 0`. -/
def statsFromBatch (total non_null unique_count : ℤ) (mn mx : Option V) : ColStats V :=
  let null_count := total - non_null
  { total_count := total
    non_null_count := non_null
    null_count := null_count
    null_percent := if total > 0 then (null_count : ℚ) / (total : ℚ) * 100 else 0
    unique_count := unique_count
    unique_percent := if total > 0 then (unique_count : ℚ) / (total : ℚ) * 100 else 0
    min_value := mn
    max_value := mx }

/-- The `idx += 4` reading loop of `get_all_column_stats`: consume four cells
of the wide row per column.  The final catch-all arm is unreachable for rows
produced by `wideRow`. -/
def parseBatchRow (total : ℤ) : List String → List (AggCell V) → List (String × ColStats V)
  | [], _ => []
  | c :: cs, .int nn :: .int u :: .val mn :: .val mx :: rest =>
      (c, statsFromBatch total nn u mn mx) :: parseBatchRow total cs rest
  | _ :: _, _ => []

/-- `DuckGuardEngine.get_all_column_stats(source, columns)`: empty input gives
an empty dict; otherwise one wide query whose row is decoded positionally. -/
def get_all_column_stats (t : Table V) (columns : List String) :
    List (String × ColStats V) :=
  if columns.isEmpty then []
  else
    match wideRow t columns with
    | .int total :: rest => parseBatchRow total columns rest
    | _ => []

/-! ### Column validation methods (`src/duckguard/core/column.py`)

The count-style validations translate a predicate into a `COUNT(*)` query over
the non-NULL cells.  The `message`, `details` and `failed_rows` fields of the
source's `ValidationResult` are presentation/debugging data (the failing-row
sample is explicitly a bounded sample) and are omitted, as is the column name,
which only enters message text. -/

/-- Outcome of a count-style column validation (`core/result.py`,
`ValidationResult`): pass flag, violating-row count, expected value. -/
structure ColValidationResult where
  passed : Bool
  actual_value : ℤ
  expected_value : ℤ

/-- The count computed by `Column.between`'s SQL query: rows where the column
`IS NOT NULL AND (col < min_val OR col > max_val)`. -/
def betweenViolations (vs : ColVals V) (min_val max_val : V) : ℤ :=
  (vs.countP (fun cell =>
    match cell with
    | some v => decide (v < min_val ∨ v > max_val)
    | none => false) : ℤ)

/-- `Column.between(min_val, max_val)`: passes iff no non-NULL value falls
outside the inclusive range. -/
def between (vs : ColVals V) (min_val max_val : V) : ColValidationResult :=
  let out_of_range := betweenViolations vs min_val max_val
  { passed := out_of_range == 0
    actual_value := out_of_range
    expected_value := 0 }

/-- `Column.has_no_duplicates()`: the duplicate count is
`total_count - unique_count` taken from the cached column statistics. -/
def has_no_duplicates (vs : ColVals V) : ColValidationResult :=
  let total := (columnStats vs).total_count
  let unique := (columnStats vs).unique_count
  let duplicates := total - unique
  { passed := duplicates == 0
    actual_value := duplicates
    expected_value := 0 }

end EngineStats

/-! ## Distribution drift detection (`Column.detect_drift` / `Column._ks_test`)

`detect_drift` first pulls the numeric values of both columns
(`Column._get_numeric_values`); the embedding takes those two value lists
directly.  Python's `math.exp` (standard library, not repository code) is
embedded as a truncated Taylor series `expQ`; only its value at `0`, where the
series is exact (`expQ 0 = 1`), matters for the verified property. -/

/-- Truncated Taylor series for the exponential, standing in for `math.exp`. -/
def expQ (x : ℚ) : ℚ :=
  (List.range 15).foldl (fun acc k => acc + x ^ k / (Nat.factorial k : ℚ)) 0

/-- Empirical CDF used inside `_ks_test`: the fraction of data points `≤ val`. -/
def empiricalCdf (data : List ℚ) (val : ℚ) : ℚ :=
  (data.countP (fun x => x ≤ val) : ℚ) / (data.length : ℚ)

/-- `Column._ks_test(data1, data2)`: two-sample Kolmogorov-Smirnov test,
returning `(ks_statistic, p_value)`.  The statistic is the maximum absolute
difference of the two empirical CDFs over the merged value set; the p-value is
the asymptotic approximation `2 * exp(-2 * (D * en)^2)` with
`en = sqrt(n1*n2/(n1+n2))` — embedded with the square pushed through the
square root, `(D * en)^2 = D^2 * n1*n2/(n1+n2)`, which is exact — clamped to
`[0, 1]`. -/
def _ks_test (data1 data2 : List ℚ) : ℚ × ℚ :=
  let data1_sorted := data1.mergeSort (fun a b => a ≤ b)
  let data2_sorted := data2.mergeSort (fun a b => a ≤ b)
  let n1 := data1_sorted.length
  let n2 := data2_sorted.length
  let all_values := ((data1_sorted ++ data2_sorted).dedup).mergeSort (fun a b => a ≤ b)
  let max_diff := all_values.foldl
    (fun acc val => max acc |empiricalCdf data1_sorted val - empiricalCdf data2_sorted val|) 0
  let ks_stat := max_diff
  let p_value := 2 * expQ (-(2 * ks_stat ^ 2 * ((n1 * n2 : ℚ) / ((n1 : ℚ) + (n2 : ℚ)))))
  (ks_stat, min 1 (max 0 p_value))

/-- Modelled from the spec: the `DriftResult` record is imported from
`duckguard.core.result`, which under `src/` does not define it; its fields
follow spec §4.3 and the constructor calls in `Column.detect_drift`.  The
message text (which interpolates dataset/column names) is reduced to its
constant prefix. -/
structure DriftResult where
  is_drifted : Bool
  p_value : ℚ
  statistic : ℚ
  threshold : ℚ
  method : String
  message : String

/-- `Column.detect_drift(reference_column, threshold, method)`, applied to the
two columns' extracted numeric value lists: empty data on either side reports
no drift; otherwise drift is flagged when the KS p-value is below the
threshold (default 0.05). -/
def detect_drift (current_values reference_values : List ℚ)
    (threshold : ℚ) (method : String) : DriftResult :=
  if current_values.length = 0 ∨ reference_values.length = 0 then
    { is_drifted := false
      p_value := 1
      statistic := 0
      threshold := threshold
      method := method
      message := "Insufficient data for drift detection" }
  else
    let r := _ks_test current_values reference_values
    let is_drifted := decide (r.2 < threshold)
    { is_drifted := is_drifted
      p_value := r.2
      statistic := r.1
      threshold := threshold
      method := method
      message := if is_drifted then "Distribution drift detected" else "No significant drift" }

/-! ## Cross-dataset reconciliation (`Dataset.reconcile`)

Cell values are rationals here because the `tolerance > 0` comparison path
casts to DOUBLE and subtracts.  The sampled `mismatches` list and the
`details` dict are presentation/debugging data and are omitted. -/

/-- SQL equality as a join/WHERE condition: `s.k = t.k` is satisfied only when
both sides are non-NULL and equal (NULL never matches). -/
def sqlEq {V : Type} [DecidableEq V] (a b : Option V) : Bool :=
  match a, b with
  | some x, some y => x == y
  | _, _ => false

/-- The cell of a row under a named column of the given schema. -/
def rowCell {V : Type} (schema : List String) (row : List (Option V)) (c : String) :
    Option V :=
  match schema.indexOf? c with
  | some i => row.getD i none
  | none => none

/-- The key-join condition of `reconcile`'s SQL:
`s."k1" = t."k1" AND s."k2" = t."k2" AND ...`. -/
def keyJoinMatch {V : Type} [DecidableEq V] (srcSchema tgtSchema : List String)
    (key_columns : List String) (s t : List (Option V)) : Bool :=
  key_columns.all (fun k => sqlEq (rowCell srcSchema s k) (rowCell tgtSchema t k))

/-- `reconcile`'s first anti-join: source rows with no key match in the
target (`missing_in_target`). -/
def missingInTarget {V : Type} [DecidableEq V] (src tgt : Table V)
    (key_columns : List String) : ℤ :=
  ((src.rows.filter (fun s =>
    !(tgt.rows.any (fun t => keyJoinMatch src.schema tgt.schema key_columns s t)))).length : ℤ)

/-- `reconcile`'s second anti-join: target rows with no key match in the
source (`extra_in_target`). -/
def extraInTarget {V : Type} [DecidableEq V] (src tgt : Table V)
    (key_columns : List String) : ℤ :=
  ((tgt.rows.filter (fun t =>
    !(src.rows.any (fun s => keyJoinMatch src.schema tgt.schema key_columns s t)))).length : ℤ)

/-- The per-pair mismatch condition on one compared column: with
`tolerance > 0`, `ABS(COALESCE(s.col, 0) - COALESCE(t.col, 0)) > tolerance`
or a one-sided NULL; with exact matching, SQL `IS DISTINCT FROM`. -/
def valueMismatchCond (tolerance : ℚ) (sv tv : Option ℚ) : Bool :=
  if tolerance > 0 then
    decide (|sv.getD 0 - tv.getD 0| > tolerance)
      || (sv.isNone && tv.isSome) || (sv.isSome && tv.isNone)
  else
    !(sv == tv)

/-- `reconcile`'s per-column mismatch count: `COUNT(*)` over the inner join
of source and target on the key columns, restricted to mismatching pairs. -/
def valueMismatchCount (src tgt : Table ℚ) (key_columns : List String)
    (tolerance : ℚ) (c : String) : ℤ :=
  ((src.rows.flatMap (fun s => tgt.rows.filter (fun t =>
    keyJoinMatch src.schema tgt.schema key_columns s t &&
      valueMismatchCond tolerance (rowCell src.schema s c)
        (rowCell tgt.schema t c)))).length : ℤ)

/-- The columns `reconcile` compares: the given list, or by default every
non-key column of the source schema. -/
def compareColumnsOf (src : Table ℚ) (compare_columns : Option (List String))
    (key_columns : List String) : List String :=
  match compare_columns with
  | some cols => cols
  | none => src.schema.filter (fun c => decide (c ∉ key_columns))

/-- The `value_mismatches` dict: only columns with a positive mismatch count
are recorded. -/
def valueMismatchesOf (src tgt : Table ℚ) (key_columns : List String)
    (tolerance : ℚ) (compare_cols : List String) : List (String × ℤ) :=
  compare_cols.filterMap (fun c =>
    let m := valueMismatchCount src tgt key_columns tolerance c
    if m > 0 then some (c, m) else none)

/-- Modelled from the spec: the `ReconciliationResult` record is imported from
`duckguard.core.result`, which under `src/` does not define it; its fields
follow spec §3 and the constructor call in `Dataset.reconcile` (the sampled
`mismatches` list and `details` dict are omitted). -/
structure ReconciliationResult where
  passed : Bool
  source_row_count : ℤ
  target_row_count : ℤ
  missing_in_target : ℤ
  extra_in_target : ℤ
  value_mismatches : List (String × ℤ)
  match_percentage : ℚ
  key_columns : List String
  compared_columns : List String

/-- `Dataset.reconcile(target, key_columns, compare_columns, tolerance)`:
anti-join missing/extra counts, per-column mismatch counts over matched keys,
and the match-percentage aggregation (`total_comparisons` is
`matched_rows * len(compare_columns)` when the compared-column list is
non-empty — Python list truthiness — and `matched_rows` itself otherwise). -/
def reconcile (src tgt : Table ℚ) (key_columns : List String)
    (compare_columns : Option (List String)) (tolerance : ℚ) :
    ReconciliationResult :=
  let compare_cols := compareColumnsOf src compare_columns key_columns
  let missing_count := missingInTarget src tgt key_columns
  let extra_count := extraInTarget src tgt key_columns
  let value_mismatches := valueMismatchesOf src tgt key_columns tolerance compare_cols
  let source_count : ℤ := src.rows.length
  let target_count : ℤ := tgt.rows.length
  let matched_rows := source_count - missing_count
  let total_comparisons :=
    if compare_cols ≠ [] then matched_rows * (compare_cols.length : ℤ) else matched_rows
  let total_mismatches := (value_mismatches.map Prod.snd).sum
  let match_percentage : ℚ :=
    if total_comparisons > 0 then
      ((total_comparisons - total_mismatches : ℤ) : ℚ) / (total_comparisons : ℚ) * 100
    else if missing_count = 0 ∧ extra_count = 0 then 100 else 0
  { passed := missing_count == 0 && extra_count == 0 && value_mismatches.isEmpty
    source_row_count := source_count
    target_row_count := target_count
    missing_in_target := missing_count
    extra_in_target := extra_count
    value_mismatches := value_mismatches
    match_percentage := match_percentage
    key_columns := key_columns
    compared_columns := compare_cols }

/-- The `total_comparisons` quantity `reconcile` computes: matched key rows
times compared-column count when the compared-column list is non-empty, and
the matched key row count itself otherwise. -/
def totalComparisonsOf (src tgt : Table ℚ) (key_columns : List String)
    (compare_columns : Option (List String)) : ℤ :=
  let compare_cols := compareColumnsOf src compare_columns key_columns
  let matched_rows := (src.rows.length : ℤ) - missingInTarget src tgt key_columns
  if compare_cols ≠ [] then matched_rows * (compare_cols.length : ℤ) else matched_rows

/-- The match-percentage formula of `reconcile`, written out over the named
helper quantities (used to state the amended C6). -/
def matchPercentageFormula (src tgt : Table ℚ) (key_columns : List String)
    (compare_columns : Option (List String)) (tolerance : ℚ) : ℚ :=
  let total_comparisons := totalComparisonsOf src tgt key_columns compare_columns
  let total_mismatches :=
    ((valueMismatchesOf src tgt key_columns tolerance
        (compareColumnsOf src compare_columns key_columns)).map Prod.snd).sum
  if total_comparisons > 0 then
    ((total_comparisons - total_mismatches : ℤ) : ℚ) / (total_comparisons : ℚ) * 100
  else if missingInTarget src tgt key_columns = 0 ∧ extraInTarget src tgt key_columns = 0
    then 100 else 0

/-- Source table for the C6 scenario: one key column `id`, rows 1 and 2. -/
def reconSrcExample : Table ℚ := ⟨["id"], [[some 1], [some 2]]⟩

/-- Target table for the C6 scenario: one key column `id`, rows 1 and 3. -/
def reconTgtExample : Table ℚ := ⟨["id"], [[some 1], [some 3]]⟩

/-! ## Rule executor (`src/duckguard/rules/executor.py`)

The executor is embedded over an oracle view of the engine: each engine query
a handler can perform is an `Except String _` field of the column/dataset
oracle, an `Except.error` representing that query (or the regex engine, or a
cast) raising an exception with the given text.  Everything the executor does
with those answers — dispatch, comparison, result construction, the
try/except conversion — is embedded faithfully.  Numeric string formatting in
messages (thousands separators, 2-decimal percentages) is approximated by
plain rendering; no verified property depends on message text other than the
error-path and column-not-found messages, which are exact. -/

/-- The `CheckType.value` strings of the Python enum. -/
def CheckType.pyName : CheckType → String
  | .not_null => "not_null"
  | .null_percent => "null_percent"
  | .unique => "unique"
  | .unique_percent => "unique_percent"
  | .no_duplicates => "no_duplicates"
  | .range => "range"
  | .between => "between"
  | .min => "min"
  | .max => "max"
  | .positive => "positive"
  | .negative => "negative"
  | .non_negative => "non_negative"
  | .pattern => "pattern"
  | .length => "length"
  | .min_length => "min_length"
  | .max_length => "max_length"
  | .allowed_values => "allowed_values"
  | .isin => "isin"
  | .not_in => "not_in"
  | .type => "type"
  | .semantic_type => "semantic_type"
  | .mean => "mean"
  | .stddev => "stddev"
  | .anomaly => "anomaly"
  | .row_count => "row_count"
  | .custom_sql => "custom_sql"

/-- Oracle view of one dataset column as the check handlers query it: the
cached statistics dict and the counting queries of the `Column` validation
methods the executor dispatches to.  Each `Except.error` models the
underlying engine call raising an exception. -/
structure ColumnOracle where
  name : String
  statsE : Except String (ColStats ℚ)
  betweenE : CVal → CVal → Except String ℤ
  matchesE : CVal → Except String ℤ
  isinE : List CVal → Except String ℤ
  greaterThanE : CVal → Except String ℤ
  lessThanE : CVal → Except String ℤ
  lengthsE : CVal → CVal → Except String ℤ

/-- Oracle view of a dataset: its source string, columns (in schema order)
and the row-count query. -/
structure DatasetOracle where
  source : String
  cols : List ColumnOracle
  rowCountE : Except String ℤ

/-- `Dataset.columns`: the schema's column names. -/
def DatasetOracle.columnNames (ds : DatasetOracle) : List String :=
  ds.cols.map (fun c => c.name)

/-- Result of a single check execution (`executor.CheckResult`); the
`details` dict is omitted. -/
structure CheckResult where
  check : Check
  column : Option String
  passed : Bool
  actual_value : CVal
  expected_value : CVal
  message : String
  severity : Severity

/-- `CheckResult.is_failure`: a hard failure is a non-passed result of
severity Error. -/
def CheckResult.is_failure (r : CheckResult) : Bool :=
  !r.passed && r.severity == Severity.error

/-- Result of executing a complete rule set (`executor.ExecutionResult`);
the `started_at` / `finished_at` timestamps are omitted. -/
structure ExecutionResult where
  ruleset : RuleSet
  source : String
  results : List CheckResult

/-- `ExecutionResult.passed`: no Error-severity failures. -/
def ExecutionResult.passed (er : ExecutionResult) : Bool :=
  !(er.results.any (fun r => r.is_failure))

/-- `ExecutionResult.total_checks`. -/
def ExecutionResult.total_checks (er : ExecutionResult) : ℕ :=
  er.results.length

/-- `ExecutionResult.passed_count`. -/
def ExecutionResult.passed_count (er : ExecutionResult) : ℕ :=
  er.results.countP (fun r => r.passed)

/-- `ExecutionResult.failed_count`. -/
def ExecutionResult.failed_count (er : ExecutionResult) : ℕ :=
  er.results.countP (fun r => r.is_failure)

/-- `ExecutionResult.warning_count`. -/
def ExecutionResult.warning_count (er : ExecutionResult) : ℕ :=
  er.results.countP (fun r => !r.passed && r.severity == Severity.warning)

/-- `ExecutionResult.quality_score`: 100 on an empty result list, else
`passed_count / total_checks * 100`. -/
def ExecutionResult.quality_score (er : ExecutionResult) : ℚ :=
  if er.results.isEmpty then 100
  else (er.passed_count : ℚ) / (er.total_checks : ℚ) * 100

/-- `RuleExecutor._check_row_count`: row count against a threshold. -/
def _check_row_count (ds : DatasetOracle) (check : Check) : Except String CheckResult :=
  ds.rowCountE.map (fun actual =>
    let passed := compareOp (some (actual : ℚ)) check.value.asNum check.operator
    { check := check
      column := none
      passed := passed
      actual_value := .num (actual : ℚ)
      expected_value := .str (check.operator ++ " " ++ check.value.render)
      message := "Row count is " ++ toString actual ++ " (expected " ++ check.operator
        ++ " " ++ check.value.render ++ ")"
      severity := check.severity })

/-- `RuleExecutor._check_not_null`. -/
def _check_not_null (col : ColumnOracle) (check : Check) : Except String CheckResult :=
  col.statsE.map (fun s =>
    let null_count := s.null_count
    let passed := null_count == 0
    { check := check
      column := some col.name
      passed := passed
      actual_value := .num (null_count : ℚ)
      expected_value := .num 0
      message := if passed then "Column \x27" ++ col.name ++ "\x27 has no null values"
        else "Column \x27" ++ col.name ++ "\x27 has " ++ toString null_count ++ " null values"
      severity := check.severity })

/-- `RuleExecutor._check_null_percent`. -/
def _check_null_percent (col : ColumnOracle) (check : Check) : Except String CheckResult :=
  col.statsE.map (fun s =>
    let actual := s.null_percent
    let passed := compareOp (some actual) check.value.asNum check.operator
    { check := check
      column := some col.name
      passed := passed
      actual_value := .num actual
      expected_value := .str (check.operator ++ " " ++ check.value.render ++ "%")
      message := "Column \x27" ++ col.name ++ "\x27 null_percent is " ++ toString actual
        ++ "% (expected " ++ check.operator ++ " " ++ check.value.render ++ "%)"
      severity := check.severity })

/-- `RuleExecutor._check_unique`: passes iff `unique_percent == 100`. -/
def _check_unique (col : ColumnOracle) (check : Check) : Except String CheckResult :=
  col.statsE.map (fun s =>
    let unique_pct := s.unique_percent
    let passed := unique_pct == 100
    { check := check
      column := some col.name
      passed := passed
      actual_value := .num unique_pct
      expected_value := .num 100
      message := if passed then "Column \x27" ++ col.name ++ "\x27 is 100% unique"
        else "Column \x27" ++ col.name ++ "\x27 is " ++ toString unique_pct ++ "% unique"
      severity := check.severity })

/-- `RuleExecutor._check_unique_percent`. -/
def _check_unique_percent (col : ColumnOracle) (check : Check) : Except String CheckResult :=
  col.statsE.map (fun s =>
    let actual := s.unique_percent
    let passed := compareOp (some actual) check.value.asNum check.operator
    { check := check
      column := some col.name
      passed := passed
      actual_value := .num actual
      expected_value := .str (check.operator ++ " " ++ check.value.render ++ "%")
      message := "Column \x27" ++ col.name ++ "\x27 unique_percent is " ++ toString actual
        ++ "% (expected " ++ check.operator ++ " " ++ check.value.render ++ "%)"
      severity := check.severity })

/-- `RuleExecutor._check_no_duplicates`, via `Column.has_no_duplicates`:
duplicate count is `total_count - unique_count` from the statistics dict. -/
def _check_no_duplicates (col : ColumnOracle) (check : Check) : Except String CheckResult :=
  col.statsE.map (fun s =>
    let duplicates : ℤ := s.total_count - s.unique_count
    let passed := duplicates == 0
    { check := check
      column := some col.name
      passed := passed
      actual_value := .num (duplicates : ℚ)
      expected_value := .num 0
      message := "Column \x27" ++ col.name ++ "\x27 has " ++ toString duplicates
        ++ " duplicate values"
      severity := check.severity })

/-- `RuleExecutor._check_between` (also serves `range`): a malformed value
shape yields a failing configuration result without querying; otherwise the
range-violation count query decides. -/
def _check_between (col : ColumnOracle) (check : Check) : Except String CheckResult :=
  match check.value with
  | .list [min_val, max_val] =>
    (col.betweenE min_val max_val).map (fun out_of_range =>
      let passed := out_of_range == 0
      { check := check
        column := some col.name
        passed := passed
        actual_value := .num (out_of_range : ℚ)
        expected_value := .str ("[" ++ min_val.render ++ ", " ++ max_val.render ++ "]")
        message := "Column \x27" ++ col.name ++ "\x27 has " ++ toString out_of_range
          ++ " values outside [" ++ min_val.render ++ ", " ++ max_val.render ++ "]"
        severity := check.severity })
  | _ =>
    .ok { check := check
          column := some col.name
          passed := false
          actual_value := .noneV
          expected_value := check.value
          message := "Range check requires [min, max], got: " ++ check.value.render
          severity := .error }

/-- `RuleExecutor._check_min`: passes iff the column minimum exists and is at
least the expected value. -/
def _check_min (col : ColumnOracle) (check : Check) : Except String CheckResult :=
  col.statsE.map (fun s =>
    let actual_min := s.min_value
    let passed := match actual_min, check.value.asNum with
      | some m, some e => decide (m ≥ e)
      | _, _ => false
    { check := check
      column := some col.name
      passed := passed
      actual_value := match actual_min with | some m => .num m | none => .noneV
      expected_value := .str (">= " ++ check.value.render)
      message := "Column \x27" ++ col.name ++ "\x27 min is "
        ++ (match actual_min with | some m => toString m | none => "None")
        ++ " (expected >= " ++ check.value.render ++ ")"
      severity := check.severity })

/-- `RuleExecutor._check_max`. -/
def _check_max (col : ColumnOracle) (check : Check) : Except String CheckResult :=
  col.statsE.map (fun s =>
    let actual_max := s.max_value
    let passed := match actual_max, check.value.asNum with
      | some m, some e => decide (m ≤ e)
      | _, _ => false
    { check := check
      column := some col.name
      passed := passed
      actual_value := match actual_max with | some m => .num m | none => .noneV
      expected_value := .str ("<= " ++ check.value.render)
      message := "Column \x27" ++ col.name ++ "\x27 max is "
        ++ (match actual_max with | some m => toString m | none => "None")
        ++ " (expected <= " ++ check.value.render ++ ")"
      severity := check.severity })

/-- `RuleExecutor._check_positive`, via `Column.greater_than(0)`. -/
def _check_positive (col : ColumnOracle) (check : Check) : Except String CheckResult :=
  (col.greaterThanE (.num 0)).map (fun invalid_count =>
    let passed := invalid_count == 0
    { check := check
      column := some col.name
      passed := passed
      actual_value := .num (invalid_count : ℚ)
      expected_value := .str "> 0"
      message := if passed then "Column \x27" ++ col.name ++ "\x27 has all positive values"
        else "Column \x27" ++ col.name ++ "\x27 has " ++ toString invalid_count ++ " values <= 0"
      severity := check.severity })

/-- `RuleExecutor._check_negative`, via `Column.less_than(0)`. -/
def _check_negative (col : ColumnOracle) (check : Check) : Except String CheckResult :=
  (col.lessThanE (.num 0)).map (fun invalid_count =>
    let passed := invalid_count == 0
    { check := check
      column := some col.name
      passed := passed
      actual_value := .num (invalid_count : ℚ)
      expected_value := .str "< 0"
      message := if passed then "Column \x27" ++ col.name ++ "\x27 has all negative values"
        else "Column \x27" ++ col.name ++ "\x27 has " ++ toString invalid_count ++ " values >= 0"
      severity := check.severity })

/-- `RuleExecutor._check_non_negative`: column minimum exists and is `≥ 0`. -/
def _check_non_negative (col : ColumnOracle) (check : Check) : Except String CheckResult :=
  col.statsE.map (fun s =>
    let actual_min := s.min_value
    let passed := match actual_min with
      | some m => decide (m ≥ 0)
      | none => false
    { check := check
      column := some col.name
      passed := passed
      actual_value := match actual_min with | some m => .num m | none => .noneV
      expected_value := .str ">= 0"
      message := "Column \x27" ++ col.name ++ "\x27 min is "
        ++ (match actual_min with | some m => toString m | none => "None")
        ++ " (expected >= 0)"
      severity := check.severity })

/-- The regex `_check_pattern` passes to `Column.matches`: a truthy
`pattern_name` param resolves through `BUILTIN_PATTERNS`, defaulting to the
raw check value. -/
def patternOf (check : Check) : CVal :=
  match check.params.lookup "pattern_name" with
  | some pname =>
    if pname = "" then check.value
    else match BUILTIN_PATTERNS.lookup pname with
      | some p => .str p
      | none => check.value
  | none => check.value

/-- `RuleExecutor._check_pattern`: a malformed or unsupported regex makes the
engine raise, modelled by the `matchesE` oracle. -/
def _check_pattern (col : ColumnOracle) (check : Check) : Except String CheckResult :=
  (col.matchesE (patternOf check)).map (fun non_matching =>
    let passed := non_matching == 0
    { check := check
      column := some col.name
      passed := passed
      actual_value := .num (non_matching : ℚ)
      expected_value := .str ("matches \x27" ++ (patternOf check).render ++ "\x27")
      message := "Column \x27" ++ col.name ++ "\x27 has " ++ toString non_matching
        ++ " values not matching pattern \x27" ++ (patternOf check).render ++ "\x27"
      severity := check.severity })

/-- `RuleExecutor._check_length`, via `Column.value_lengths_between`. -/
def _check_length (col : ColumnOracle) (check : Check) : Except String CheckResult :=
  match check.value with
  | .list [min_len, max_len] =>
    (col.lengthsE min_len max_len).map (fun invalid_count =>
      let passed := invalid_count == 0
      { check := check
        column := some col.name
        passed := passed
        actual_value := .num (invalid_count : ℚ)
        expected_value := .str ("length in [" ++ min_len.render ++ ", " ++ max_len.render ++ "]")
        message := "Column \x27" ++ col.name ++ "\x27 has " ++ toString invalid_count
          ++ " values with length outside [" ++ min_len.render ++ ", " ++ max_len.render ++ "]"
        severity := check.severity })
  | _ =>
    .ok { check := check
          column := some col.name
          passed := false
          actual_value := .noneV
          expected_value := check.value
          message := "Length check requires [min, max], got: " ++ check.value.render
          severity := .error }

/-- `RuleExecutor._check_min_length`: `value_lengths_between(min_len, 1000000)`. -/
def _check_min_length (col : ColumnOracle) (check : Check) : Except String CheckResult :=
  (col.lengthsE check.value (.num 1000000)).map (fun invalid_count =>
    let passed := invalid_count == 0
    { check := check
      column := some col.name
      passed := passed
      actual_value := .num (invalid_count : ℚ)
      expected_value := .str ("length >= " ++ check.value.render)
      message := "Column \x27" ++ col.name ++ "\x27 has " ++ toString invalid_count
        ++ " values with length outside [" ++ check.value.render ++ ", 1000000]"
      severity := check.severity })

/-- `RuleExecutor._check_max_length`: `value_lengths_between(0, max_len)`. -/
def _check_max_length (col : ColumnOracle) (check : Check) : Except String CheckResult :=
  (col.lengthsE (.num 0) check.value).map (fun invalid_count =>
    let passed := invalid_count == 0
    { check := check
      column := some col.name
      passed := passed
      actual_value := .num (invalid_count : ℚ)
      expected_value := .str ("length <= " ++ check.value.render)
      message := "Column \x27" ++ col.name ++ "\x27 has " ++ toString invalid_count
        ++ " values with length outside [0, " ++ check.value.render ++ "]"
      severity := check.severity })

/-- `RuleExecutor._check_allowed_values` (also serves `isin`): a non-list
value is wrapped into a one-element list. -/
def _check_allowed_values (col : ColumnOracle) (check : Check) : Except String CheckResult :=
  let allowed := match check.value with
    | .list l => l
    | v => [v]
  (col.isinE allowed).map (fun invalid_count =>
    let passed := invalid_count == 0
    { check := check
      column := some col.name
      passed := passed
      actual_value := .num (invalid_count : ℚ)
      expected_value := .str ("in " ++ (CVal.list allowed).render)
      message := "Column \x27" ++ col.name ++ "\x27 has " ++ toString invalid_count
        ++ " values not in allowed set"
      severity := check.severity })

/-- The fixed type-to-handler dispatch dict of
`RuleExecutor._execute_column_check`. -/
def check_handlers (t : CheckType) :
    Option (ColumnOracle → Check → Except String CheckResult) :=
  match t with
  | .not_null => some _check_not_null
  | .null_percent => some _check_null_percent
  | .unique => some _check_unique
  | .unique_percent => some _check_unique_percent
  | .no_duplicates => some _check_no_duplicates
  | .between => some _check_between
  | .range => some _check_between
  | .min => some _check_min
  | .max => some _check_max
  | .positive => some _check_positive
  | .negative => some _check_negative
  | .non_negative => some _check_non_negative
  | .pattern => some _check_pattern
  | .length => some _check_length
  | .min_length => some _check_min_length
  | .max_length => some _check_max_length
  | .allowed_values => some _check_allowed_values
  | .isin => some _check_allowed_values
  | _ => none

/-- `Dataset.__getitem__`: raises `KeyError` for an unknown column name
(unreachable from `execute`, which checks membership first). -/
def datasetGetItem (ds : DatasetOracle) (name : String) : Except String ColumnOracle :=
  match ds.cols.find? (fun c => c.name == name) with
  | some col => .ok col
  | none => .error ("Column \x27" ++ name ++ "\x27 not found. Available columns: "
      ++ String.intercalate ", " ds.columnNames)

/-- The body of `RuleExecutor._execute_column_check`'s `try` block: column
lookup, dispatch, handler run; an unsupported check type is an ordinary
failing result, not an exception. -/
def columnCheckBody (ds : DatasetOracle) (col_name : String) (check : Check) :
    Except String CheckResult :=
  match datasetGetItem ds col_name with
  | .error e => .error e
  | .ok col =>
    match check_handlers check.type with
    | some handler => handler col check
    | none =>
      .ok { check := check
            column := some col_name
            passed := false
            actual_value := .noneV
            expected_value := .noneV
            message := "Unsupported check type: " ++ check.type.pyName
            severity := .error }

/-- `RuleExecutor._execute_column_check`: any exception in the body is caught
and converted into a failing Error-severity result carrying the exception
text. -/
def _execute_column_check (ds : DatasetOracle) (col_name : String) (check : Check) :
    CheckResult :=
  match columnCheckBody ds col_name check with
  | .ok r => r
  | .error e =>
    { check := check
      column := some col_name
      passed := false
      actual_value := .noneV
      expected_value := .noneV
      message := "Error executing check: " ++ e
      severity := .error }

/-- The body of `RuleExecutor._execute_table_check`'s `try` block. -/
def tableCheckBody (ds : DatasetOracle) (check : Check) : Except String CheckResult :=
  match check.type with
  | .row_count => _check_row_count ds check
  | _ =>
    .ok { check := check
          column := none
          passed := false
          actual_value := .noneV
          expected_value := .noneV
          message := "Unsupported table check type: " ++ check.type.pyName
          severity := .error }

/-- `RuleExecutor._execute_table_check` with its exception conversion. -/
def _execute_table_check (ds : DatasetOracle) (check : Check) : CheckResult :=
  match tableCheckBody ds check with
  | .ok r => r
  | .error e =>
    { check := check
      column := none
      passed := false
      actual_value := .noneV
      expected_value := .noneV
      message := "Error executing check: " ++ e
      severity := .error }

/-- The failing result `execute` synthesizes for a rule-set column that is
absent from the dataset schema. -/
def columnNotFoundResult (col_name : String) : CheckResult :=
  { check := { type := .not_null }
    column := some col_name
    passed := false
    actual_value := .noneV
    expected_value := .str "column exists"
    message := "Column \x27" ++ col_name ++ "\x27 not found in dataset"
    severity := .error }

/-- The results one entry of `RuleSet.columns` contributes in `execute`'s
column loop: a single synthesized failure if the column is absent from the
schema, otherwise one result per enabled check. -/
def colEntryResults (ds : DatasetOracle) (p : String × ColumnRules) : List CheckResult :=
  if p.1 ∉ ds.columnNames then [columnNotFoundResult p.1]
  else (p.2.checks.filter (fun c => c.enabled)).map (_execute_column_check ds p.1)

/-- `RuleExecutor.execute` with a pre-loaded dataset: enabled table-level
checks first, then the per-column loop, in rule-set order. -/
def execute (rs : RuleSet) (ds : DatasetOracle) : ExecutionResult :=
  let tableResults := (rs.table.checks.filter (fun c => c.enabled)).map (_execute_table_check ds)
  let colResults := rs.columns.flatMap (colEntryResults ds)
  { ruleset := rs
    source := ds.source
    results := tableResults ++ colResults }

/-- The number of results `execute` must produce: one per enabled table
check, plus — per rule-set column — one synthesized failure if the column is
absent and one per enabled check otherwise. -/
def expectedResultCount (rs : RuleSet) (ds : DatasetOracle) : ℕ :=
  (rs.table.checks.filter (fun c => c.enabled)).length +
    (rs.columns.map (fun p =>
      if p.1 ∉ ds.columnNames then 1
      else (p.2.checks.filter (fun c => c.enabled)).length)).sum

/-! ### Concrete fixtures used by the executor witnesses -/

/-- A column oracle whose counting queries all succeed with 0. -/
def stubColumnOracle (name : String) (statsE : Except String (ColStats ℚ)) : ColumnOracle :=
  { name := name
    statsE := statsE
    betweenE := fun _ _ => .ok 0
    matchesE := fun _ => .ok 0
    isinE := fun _ => .ok 0
    greaterThanE := fun _ => .ok 0
    lessThanE := fun _ => .ok 0
    lengthsE := fun _ _ => .ok 0 }

/-- Statistics of an empty column. -/
def emptyColStats : ColStats ℚ :=
  { total_count := 0
    non_null_count := 0
    null_count := 0
    null_percent := 0
    unique_count := 0
    unique_percent := 0
    min_value := none
    max_value := none }

/-- Dataset fixture for the C1 witness: column `a`'s statistics query raises
`boom`, and the row-count query raises `db down`. -/
def dsBoom : DatasetOracle :=
  { source := "orders.csv"
    cols := [stubColumnOracle "a" (.error "boom")]
    rowCountE := .error "db down" }

/-- Rule-set fixture for the C1 witness: a row-count table check and a
not-null check on column `a`. -/
def rsBoom : RuleSet :=
  { columns := [("a", { name := "a", checks := [{ type := .not_null }] })]
    table := { checks := [{ type := .row_count, value := .num 1, operator := ">" }] } }

/-- Dataset fixture for the C2 witness: only column `b` exists. -/
def dsOnlyB : DatasetOracle :=
  { source := "data.csv"
    cols := [stubColumnOracle "b" (.ok emptyColStats)]
    rowCountE := .ok 0 }

/-- Column rules fixture for the C2 witness: one not-null check on the absent
column `missing`. -/
def rulesMissing : ColumnRules :=
  { name := "missing", checks := [{ type := .not_null }] }

/-- Column rules fixture for the C2 witness: one not-null check on `b`. -/
def rulesB : ColumnRules :=
  { name := "b", checks := [{ type := .not_null }] }

/-- Rule-set fixture for the C2 witness. -/
def rsMissingB : RuleSet :=
  { columns := [("missing", rulesMissing), ("b", rulesB)] }

/-! ## Theorems -/

/-- C3: for every operator among `=, ==, !=, <>, <, >, <=, >=`, if the actual
value or the expected value is `None`, `RuleExecutor._compare` returns false,
so the check fails closed rather than passing. -/
theorem compare_none_fails_closed (actual expected : Option ℚ) (operator : String)
    (hop : operator ∈ knownOperators)
    (hnone : actual = none ∨ expected = none) :
    compareOp actual expected operator = false := by
  rcases hnone with h | h
  · subst h; cases expected <;> rfl
  · subst h; cases actual <;> rfl

/-- Witness for C3: concrete evaluation with a `None` actual value. -/
theorem compare_none_fails_closed_witness :
    compareOp none (some 5) "<" = false :=
  compare_none_fails_closed none (some 5) "<" (by simp [knownOperators]) (Or.inl rfl)

/-- C10: an operator string outside `=, ==, !=, <>, <, >, <=, >=` is silently
treated as equality by `RuleExecutor._compare` (the `comparisons.get(operator,
comparisons[eq])` fallback): on any two non-`None` values it returns
`actual == expected`, and on all inputs it behaves exactly like the `"="`
operator; it never raises and never auto-fails the check. -/
theorem compare_unknown_operator_is_equality (operator : String)
    (hop : operator ∉ knownOperators) :
    (∀ x y : ℚ, compareOp (some x) (some y) operator = (x == y)) ∧
    (∀ actual expected : Option ℚ,
      compareOp actual expected operator = compareOp actual expected "=") := by
  simp only [knownOperators, List.mem_cons, List.not_mem_nil, or_false, not_or] at hop
  obtain ⟨h1, h2, h3, h4, h5, h6, h7, h8⟩ := hop
  constructor
  · intro x y
    simp [compareOp, h1, h2, h3, h4, h5, h6, h7, h8]
  · intro actual expected
    cases actual with
    | none => cases expected <;> rfl
    | some a =>
      cases expected with
      | none => rfl
      | some e =>
        simp [compareOp, h1, h2, h3, h4, h5, h6, h7, h8]

/-- Witness for C10: the made-up operator `"~~"` compares for equality. -/
theorem compare_unknown_operator_is_equality_witness :
    compareOp (some 3) (some 3) "~~" = true ∧ compareOp (some 3) (some 4) "~~" = false := by
  have h := compare_unknown_operator_is_equality "~~" (by simp [knownOperators])
  refine ⟨?_, ?_⟩
  · rw [h.1 3 3]; simp
  · rw [h.1 3 4]; simp

section EngineStatsTheorems

variable {V : Type} [LinearOrder V] [DecidableEq V]

lemma columnVals_length (t : Table V) (c : String) :
    (t.columnVals c).length = t.rows.length := by
  unfold Table.columnVals
  cases t.schema.indexOf? c <;> simp

lemma statsFromBatch_eq_columnStats (t : Table V) (c : String) :
    statsFromBatch (V := V) (t.rows.length) (sqlCountCol (t.columnVals c))
      (sqlCountDistinct (t.columnVals c)) (sqlMin (t.columnVals c))
      (sqlMax (t.columnVals c)) = get_column_stats t c := by
  unfold statsFromBatch get_column_stats columnStats
  simp [columnVals_length]

lemma parseBatchRow_wideRow (t : Table V) (cols : List String) :
    parseBatchRow (t.rows.length : ℤ)
        cols (cols.flatMap (fun c => colAggCells (t.columnVals c))) =
      cols.map (fun c => (c, get_column_stats t c)) := by
  induction cols with
  | nil => rfl
  | cons c cs ih =>
    have h4 : (c :: cs).flatMap (fun x => colAggCells (t.columnVals x)) =
        .int (sqlCountCol (t.columnVals c)) :: .int (sqlCountDistinct (t.columnVals c)) ::
        .val (sqlMin (t.columnVals c)) :: .val (sqlMax (t.columnVals c)) ::
        cs.flatMap (fun x => colAggCells (t.columnVals x)) := by
      simp [colAggCells]
    rw [h4]
    show (c, statsFromBatch (t.rows.length : ℤ) (sqlCountCol (t.columnVals c))
        (sqlCountDistinct (t.columnVals c)) (sqlMin (t.columnVals c))
        (sqlMax (t.columnVals c))) ::
      parseBatchRow (t.rows.length : ℤ) cs (cs.flatMap (fun x => colAggCells (t.columnVals x))) =
      List.map (fun x => (x, get_column_stats t x)) (c :: cs)
    rw [statsFromBatch_eq_columnStats, ih, List.map_cons]

lemma lookup_map_pair (cols : List String) (f : String → ColStats V) (c : String)
    (hc : c ∈ cols) :
    (cols.map (fun x => (x, f x))).lookup c = some (f c) := by
  induction cols with
  | nil => cases hc
  | cons a as ih =>
    by_cases hca : c = a
    · subst hca
      simp [List.lookup_cons]
    · rcases List.mem_cons.1 hc with h | h
      · exact absurd h hca
      · have hba : (c == a) = false := beq_eq_false_iff_ne.mpr hca
        simp [List.lookup_cons, hba, ih h]

/-- C7: for every source and every requested column list, the single-query
batched path `get_all_column_stats` assigns each requested column exactly the
statistics record (total, non-null, null counts, percentages, distinct count,
min, max) that a separate `get_column_stats` call computes for it: the
batching is a pure performance optimization. -/
theorem get_all_column_stats_agrees (t : Table V) (columns : List String)
    (c : String) (hc : c ∈ columns) :
    (get_all_column_stats t columns).lookup c = some (get_column_stats t c) := by
  have hne : ¬ columns.isEmpty := by
    cases columns with
    | nil => cases hc
    | cons a as => simp
  unfold get_all_column_stats
  rw [if_neg hne]
  show (parseBatchRow (t.rows.length : ℤ) columns
      (columns.flatMap (fun x => colAggCells (t.columnVals x)))).lookup c = _
  rw [parseBatchRow_wideRow]
  exact lookup_map_pair columns (fun c => get_column_stats t c) c hc

/-- C8: tightening a `between` range never reduces the out-of-range violation
count: if `[lo2, hi2]` is contained in `[lo1, hi1]` then the count reported by
`Column.between(lo2, hi2)` is at least the one reported by
`Column.between(lo1, hi1)` on the same column data. -/
theorem between_tightening_monotone (vs : ColVals V) (lo1 hi1 lo2 hi2 : V)
    (hlo : lo1 ≤ lo2) (hhi : hi2 ≤ hi1) :
    (between vs lo1 hi1).actual_value ≤ (between vs lo2 hi2).actual_value := by
  show betweenViolations vs lo1 hi1 ≤ betweenViolations vs lo2 hi2
  unfold betweenViolations
  have hmono := List.countP_mono_left (l := vs)
    (p := fun cell =>
      match cell with
      | some v => decide (v < lo1 ∨ v > hi1)
      | none => false)
    (q := fun cell =>
      match cell with
      | some v => decide (v < lo2 ∨ v > hi2)
      | none => false)
    (by
      intro cell _ hp
      cases cell with
      | none => simp at hp
      | some v =>
        simp only [decide_eq_true_eq] at hp ⊢
        rcases hp with h | h
        · exact Or.inl (lt_of_lt_of_le h hlo)
        · exact Or.inr (lt_of_le_of_lt hhi h))
  exact_mod_cast hmono

/-- C9: `has_no_duplicates` computes its duplicate count as
`total_count - unique_count`, where `total_count` counts every row (NULLs
included) while `unique_count` counts only distinct non-NULL values; hence a
column with at least one NULL reports at least `null_count` duplicates and
fails even when all its non-NULL values are pairwise distinct. -/
theorem has_no_duplicates_counts_nulls (vs : ColVals V)
    (hnull : 1 ≤ (columnStats vs).null_count) :
    (has_no_duplicates vs).actual_value
        = (columnStats vs).total_count - (columnStats vs).unique_count ∧
    (columnStats vs).null_count ≤ (has_no_duplicates vs).actual_value ∧
    ((nonNullValues vs).Nodup → (has_no_duplicates vs).passed = false) := by
  have h1 : (columnStats vs).null_count
      = (vs.length : ℤ) - ((vs.filterMap id).length : ℤ) := rfl
  have h2 : (columnStats vs).total_count = (vs.length : ℤ) := rfl
  have h3 : (columnStats vs).unique_count = ((vs.filterMap id).dedup.length : ℤ) := rfl
  have h4 : (vs.filterMap id).dedup.length ≤ (vs.filterMap id).length :=
    (List.dedup_sublist _).length_le
  have hact : (has_no_duplicates vs).actual_value
      = (columnStats vs).total_count - (columnStats vs).unique_count := rfl
  refine ⟨hact, ?_, ?_⟩
  · rw [hact, h1, h2, h3]
    omega
  · intro hnodup
    have hd : (vs.filterMap id).dedup = vs.filterMap id :=
      List.dedup_eq_self.mpr hnodup
    have hne : (columnStats vs).total_count - (columnStats vs).unique_count ≠ 0 := by
      rw [h1] at hnull
      rw [h2, h3, hd]
      omega
    show ((columnStats vs).total_count - (columnStats vs).unique_count == 0) = false
    exact beq_eq_false_iff_ne.mpr hne

end EngineStatsTheorems

/-- Witness for C8: on the integer column `[5, 0, NULL]`, shrinking the range
from `[0, 10]` (no violations) to `[1, 4]` (two violations) does not reduce
the reported count. -/
theorem between_tightening_monotone_witness :
    (0 : ℤ) ≤ 1 ∧ (4 : ℤ) ≤ 10 ∧
    (between [some (5 : ℤ), some 0, none] 0 10).actual_value ≤
      (between [some (5 : ℤ), some 0, none] 1 4).actual_value :=
  ⟨by decide, by decide,
   between_tightening_monotone [some (5 : ℤ), some 0, none] 0 10 1 4
     (by decide) (by decide)⟩

/-- Witness for C9: the integer column `[1, 2, NULL]` has one NULL and
pairwise-distinct non-NULL values, yet `has_no_duplicates` fails. -/
theorem has_no_duplicates_counts_nulls_witness :
    (1 : ℤ) ≤ (columnStats [some (1 : ℤ), some 2, none]).null_count ∧
    (has_no_duplicates [some (1 : ℤ), some 2, none]).passed = false :=
  ⟨by decide,
   (has_no_duplicates_counts_nulls [some (1 : ℤ), some 2, none] (by decide)).2.2
     (by decide)⟩

lemma foldl_max_abs_self_zero (l : List ℚ) (g : ℚ → ℚ) :
    l.foldl (fun acc val => max acc |g val - g val|) 0 = 0 := by
  suffices h : ∀ acc : ℚ, 0 ≤ acc →
      l.foldl (fun acc val => max acc |g val - g val|) acc = acc by
    exact h 0 le_rfl
  induction l with
  | nil => intro acc _; rfl
  | cons a t ih =>
    intro acc hacc
    show List.foldl (fun acc val => max acc |g val - g val|) (max acc |g a - g a|) t = acc
    rw [sub_self, abs_zero, max_eq_left hacc]
    exact ih acc hacc

lemma expQ_zero : expQ 0 = 1 := by
  norm_num [expQ, List.range_succ]

lemma ks_test_self_stat (S : List ℚ) : (_ks_test S S).1 = 0 := by
  simp only [_ks_test]
  exact foldl_max_abs_self_zero _ _

lemma ks_test_self_p (S : List ℚ) : (_ks_test S S).2 = 1 := by
  simp only [_ks_test]
  rw [foldl_max_abs_self_zero]
  norm_num [expQ_zero]

/-- C5: the two-sample KS test of a non-empty numeric sample against itself
returns statistic `D = 0` and `p_value = 1`, and `detect_drift` on two columns
holding identical non-empty numeric samples reports no drift at the default
threshold `0.05`. -/
theorem ks_self_no_drift (S : List ℚ) (h : S ≠ []) :
    (_ks_test S S).1 = 0 ∧ (_ks_test S S).2 = 1 ∧
    (detect_drift S S 0.05 "ks_test").is_drifted = false := by
  refine ⟨ks_test_self_stat S, ks_test_self_p S, ?_⟩
  have hlen : ¬ (S.length = 0 ∨ S.length = 0) := by
    simp [List.length_eq_zero, h]
  simp only [detect_drift, if_neg hlen]
  rw [ks_test_self_p]
  norm_num

/-- Witness for C5: the one-element sample `[1]` compared with itself. -/
theorem ks_self_no_drift_witness :
    ([(1 : ℚ)] ≠ []) ∧ (_ks_test [(1 : ℚ)] [(1 : ℚ)]).2 = 1 ∧
    (detect_drift [(1 : ℚ)] [(1 : ℚ)] 0.05 "ks_test").is_drifted = false :=
  ⟨by simp,
   (ks_self_no_drift [(1 : ℚ)] (by simp)).2.1,
   (ks_self_no_drift [(1 : ℚ)] (by simp)).2.2⟩

/-- Counterexample to C6 as stated: reconciling `{id: 1, 2}` against
`{id: 1, 3}` on key `id` with the default compared-column list (which is
empty, `id` being the only column) gives one missing and one extra row and
one matched key row.  The claim's `total_comparisons = matched x columns`
is `1 * 0 = 0`, so the claim prescribes `match_percentage = 0`; the code sets
`total_comparisons = matched_rows = 1` (Python list truthiness) and returns
`match_percentage = 100`. -/
theorem reconcile_match_percentage_counterexample :
    (reconcile reconSrcExample reconTgtExample ["id"] none 0).missing_in_target = 1 ∧
    (reconcile reconSrcExample reconTgtExample ["id"] none 0).extra_in_target = 1 ∧
    (reconcile reconSrcExample reconTgtExample ["id"] none 0).compared_columns = [] ∧
    ((reconcile reconSrcExample reconTgtExample ["id"] none 0).source_row_count -
        (reconcile reconSrcExample reconTgtExample ["id"] none 0).missing_in_target) *
      ((reconcile reconSrcExample reconTgtExample ["id"] none 0).compared_columns.length : ℤ)
      = 0 ∧
    (reconcile reconSrcExample reconTgtExample ["id"] none 0).match_percentage = 100 ∧
    (reconcile reconSrcExample reconTgtExample ["id"] none 0).match_percentage ≠ 0 := by
  refine ⟨by decide, by decide, by decide, by decide, ?_, ?_⟩
  · have h : (reconcile reconSrcExample reconTgtExample ["id"] none 0).match_percentage
        = ((1 : ℤ) : ℚ) / ((1 : ℤ) : ℚ) * 100 := rfl
    rw [h]; norm_num
  · have h : (reconcile reconSrcExample reconTgtExample ["id"] none 0).match_percentage
        = ((1 : ℤ) : ℚ) / ((1 : ℤ) : ℚ) * 100 := rfl
    rw [h]; norm_num

/-- C6 (amended): `reconcile` computes
`match_percentage = (total_comparisons - total_mismatches) / total_comparisons * 100`,
where `total_comparisons` is the number of matched key rows times the number
of compared columns when at least one column is compared, and the matched key
row count itself when the compared-column list is empty; when
`total_comparisons` is zero, `match_percentage` is 100 if and only if
`missing_in_target` and `extra_in_target` are both zero, and 0 otherwise. -/
theorem reconcile_match_percentage_formula (src tgt : Table ℚ)
    (key_columns : List String) (compare_columns : Option (List String))
    (tolerance : ℚ) :
    (reconcile src tgt key_columns compare_columns tolerance).match_percentage =
      matchPercentageFormula src tgt key_columns compare_columns tolerance ∧
    (totalComparisonsOf src tgt key_columns compare_columns = 0 →
      ((reconcile src tgt key_columns compare_columns tolerance).match_percentage = 100 ↔
        missingInTarget src tgt key_columns = 0 ∧ extraInTarget src tgt key_columns = 0)) := by
  have heq : (reconcile src tgt key_columns compare_columns tolerance).match_percentage =
      matchPercentageFormula src tgt key_columns compare_columns tolerance := rfl
  refine ⟨heq, ?_⟩
  intro htc
  rw [heq]
  simp only [matchPercentageFormula]
  rw [htc]
  constructor
  · intro h100
    by_contra hne
    rw [if_neg (by norm_num), if_neg hne] at h100
    norm_num at h100
  · intro hzero
    rw [if_neg (by norm_num), if_pos hzero]

/-- Witness for C6's amended theorem: reconciling two empty single-column
tables has zero comparisons and zero missing/extra rows, so the
zero-comparison branch reports a 100 match percentage. -/
theorem reconcile_match_percentage_formula_witness :
    (reconcile ⟨["id"], []⟩ ⟨["id"], []⟩ ["id"] none 0).match_percentage = 100 :=
  ((reconcile_match_percentage_formula ⟨["id"], []⟩ ⟨["id"], []⟩ ["id"] none 0).2
    (by decide)).mpr (by decide)

/-! ### Executor lemmas -/

lemma except_map_ok {α β : Type} {E : Except String α} {f : α → β} {r : β}
    (h : E.map f = .ok r) : ∃ v, E = .ok v ∧ r = f v := by
  cases E with
  | error e => simp [Except.map] at h
  | ok v => exact ⟨v, rfl, by simpa [Except.map] using h.symm⟩

lemma _check_not_null_column {col : ColumnOracle} {check : Check} {r : CheckResult}
    (h : _check_not_null col check = .ok r) : r.column = some col.name := by
  obtain ⟨v, -, rfl⟩ := except_map_ok h; rfl

lemma _check_null_percent_column {col : ColumnOracle} {check : Check} {r : CheckResult}
    (h : _check_null_percent col check = .ok r) : r.column = some col.name := by
  obtain ⟨v, -, rfl⟩ := except_map_ok h; rfl

lemma _check_unique_column {col : ColumnOracle} {check : Check} {r : CheckResult}
    (h : _check_unique col check = .ok r) : r.column = some col.name := by
  obtain ⟨v, -, rfl⟩ := except_map_ok h; rfl

lemma _check_unique_percent_column {col : ColumnOracle} {check : Check} {r : CheckResult}
    (h : _check_unique_percent col check = .ok r) : r.column = some col.name := by
  obtain ⟨v, -, rfl⟩ := except_map_ok h; rfl

lemma _check_no_duplicates_column {col : ColumnOracle} {check : Check} {r : CheckResult}
    (h : _check_no_duplicates col check = .ok r) : r.column = some col.name := by
  obtain ⟨v, -, rfl⟩ := except_map_ok h; rfl

lemma _check_min_column {col : ColumnOracle} {check : Check} {r : CheckResult}
    (h : _check_min col check = .ok r) : r.column = some col.name := by
  obtain ⟨v, -, rfl⟩ := except_map_ok h; rfl

lemma _check_max_column {col : ColumnOracle} {check : Check} {r : CheckResult}
    (h : _check_max col check = .ok r) : r.column = some col.name := by
  obtain ⟨v, -, rfl⟩ := except_map_ok h; rfl

lemma _check_positive_column {col : ColumnOracle} {check : Check} {r : CheckResult}
    (h : _check_positive col check = .ok r) : r.column = some col.name := by
  obtain ⟨v, -, rfl⟩ := except_map_ok h; rfl

lemma _check_negative_column {col : ColumnOracle} {check : Check} {r : CheckResult}
    (h : _check_negative col check = .ok r) : r.column = some col.name := by
  obtain ⟨v, -, rfl⟩ := except_map_ok h; rfl

lemma _check_non_negative_column {col : ColumnOracle} {check : Check} {r : CheckResult}
    (h : _check_non_negative col check = .ok r) : r.column = some col.name := by
  obtain ⟨v, -, rfl⟩ := except_map_ok h; rfl

lemma _check_pattern_column {col : ColumnOracle} {check : Check} {r : CheckResult}
    (h : _check_pattern col check = .ok r) : r.column = some col.name := by
  unfold _check_pattern at h
  obtain ⟨v, -, rfl⟩ := except_map_ok h; rfl

lemma _check_min_length_column {col : ColumnOracle} {check : Check} {r : CheckResult}
    (h : _check_min_length col check = .ok r) : r.column = some col.name := by
  obtain ⟨v, -, rfl⟩ := except_map_ok h; rfl

lemma _check_max_length_column {col : ColumnOracle} {check : Check} {r : CheckResult}
    (h : _check_max_length col check = .ok r) : r.column = some col.name := by
  obtain ⟨v, -, rfl⟩ := except_map_ok h; rfl

lemma _check_allowed_values_column {col : ColumnOracle} {check : Check} {r : CheckResult}
    (h : _check_allowed_values col check = .ok r) : r.column = some col.name := by
  unfold _check_allowed_values at h
  obtain ⟨v, -, rfl⟩ := except_map_ok h; rfl

lemma _check_between_column {col : ColumnOracle} {check : Check} {r : CheckResult}
    (h : _check_between col check = .ok r) : r.column = some col.name := by
  unfold _check_between at h
  split at h
  · obtain ⟨v, -, rfl⟩ := except_map_ok h; rfl
  · simp only [Except.ok.injEq] at h
    subst h; rfl

lemma _check_length_column {col : ColumnOracle} {check : Check} {r : CheckResult}
    (h : _check_length col check = .ok r) : r.column = some col.name := by
  unfold _check_length at h
  split at h
  · obtain ⟨v, -, rfl⟩ := except_map_ok h; rfl
  · simp only [Except.ok.injEq] at h
    subst h; rfl

lemma columnCheckBody_ok_column {ds : DatasetOracle} {col_name : String} {check : Check}
    {r : CheckResult} (h : columnCheckBody ds col_name check = .ok r) :
    r.column = some col_name := by
  unfold columnCheckBody datasetGetItem at h
  cases hfind : ds.cols.find? (fun c => c.name == col_name) with
  | none => rw [hfind] at h; simp at h
  | some col =>
    have hname : col.name = col_name := by
      have := List.find?_some hfind
      simpa using this
    rw [hfind] at h
    rw [← hname]
    cases htype : check.type <;> rw [htype] at h <;> simp only [check_handlers] at h <;>
      first
        | (simp only [Except.ok.injEq] at h; subst h; exact hname ▸ rfl)
        | exact _check_not_null_column h
        | exact _check_null_percent_column h
        | exact _check_unique_column h
        | exact _check_unique_percent_column h
        | exact _check_no_duplicates_column h
        | exact _check_between_column h
        | exact _check_min_column h
        | exact _check_max_column h
        | exact _check_positive_column h
        | exact _check_negative_column h
        | exact _check_non_negative_column h
        | exact _check_pattern_column h
        | exact _check_length_column h
        | exact _check_min_length_column h
        | exact _check_max_length_column h
        | exact _check_allowed_values_column h

lemma _execute_column_check_column (ds : DatasetOracle) (col_name : String) (check : Check) :
    (_execute_column_check ds col_name check).column = some col_name := by
  unfold _execute_column_check
  cases hbody : columnCheckBody ds col_name check with
  | error e => rfl
  | ok r => exact columnCheckBody_ok_column hbody

lemma _execute_table_check_column_none (ds : DatasetOracle) (check : Check) :
    (_execute_table_check ds check).column = none := by
  unfold _execute_table_check
  cases hbody : tableCheckBody ds check with
  | error e => rfl
  | ok r =>
    unfold tableCheckBody at hbody
    cases htype : check.type <;> rw [htype] at hbody <;>
      first
        | (unfold _check_row_count at hbody
           obtain ⟨v, -, rfl⟩ := except_map_ok hbody
           rfl)
        | (simp only [Except.ok.injEq] at hbody; subst hbody; rfl)

lemma colEntryResults_column {ds : DatasetOracle} {p : String × ColumnRules}
    {r : CheckResult} (hr : r ∈ colEntryResults ds p) : r.column = some p.1 := by
  unfold colEntryResults at hr
  by_cases h : p.1 ∉ ds.columnNames
  · rw [if_pos h] at hr
    rw [List.mem_singleton] at hr
    subst hr; rfl
  · rw [if_neg h] at hr
    obtain ⟨ch, -, rfl⟩ := List.mem_map.1 hr
    exact _execute_column_check_column ds p.1 ch

lemma colEntryResults_length (ds : DatasetOracle) (p : String × ColumnRules) :
    (colEntryResults ds p).length =
      if p.1 ∉ ds.columnNames then 1
      else (p.2.checks.filter (fun c => c.enabled)).length := by
  unfold colEntryResults
  by_cases h : p.1 ∉ ds.columnNames <;> simp [h]

lemma filter_tableResults_nil (ds : DatasetOracle) (k : String) (checks : List Check) :
    (checks.map (_execute_table_check ds)).filter (fun r => r.column == some k) = [] := by
  rw [List.filter_eq_nil_iff]
  intro r hr
  obtain ⟨ch, -, rfl⟩ := List.mem_map.1 hr
  rw [_execute_table_check_column_none]
  simp

lemma filter_colEntryResults_ne (ds : DatasetOracle) (p : String × ColumnRules)
    (k : String) (hne : p.1 ≠ k) :
    (colEntryResults ds p).filter (fun r => r.column == some k) = [] := by
  rw [List.filter_eq_nil_iff]
  intro r hr
  rw [colEntryResults_column hr]
  simp [hne]

lemma filter_colEntryResults_self (ds : DatasetOracle) (k : String) (rules : ColumnRules) :
    (colEntryResults ds (k, rules)).filter (fun r => r.column == some k)
      = colEntryResults ds (k, rules) := by
  rw [List.filter_eq_self]
  intro r hr
  rw [colEntryResults_column hr]
  simp

lemma filter_flatMap_missing (ds : DatasetOracle) (cols : List (String × ColumnRules))
    (k : String) (hk : k ∉ cols.map Prod.fst) :
    (cols.flatMap (colEntryResults ds)).filter (fun r => r.column == some k) = [] := by
  induction cols with
  | nil => rfl
  | cons p ps ih =>
    rw [List.flatMap_cons, List.filter_append]
    simp only [List.map_cons, List.mem_cons, not_or] at hk
    rw [filter_colEntryResults_ne ds p k (fun hpk => hk.1 hpk.symm), ih hk.2,
      List.append_nil]

lemma filter_flatMap_key (ds : DatasetOracle) (cols : List (String × ColumnRules))
    (k : String) (rules : ColumnRules) (hmem : (k, rules) ∈ cols)
    (hnodup : (cols.map Prod.fst).Nodup) :
    (cols.flatMap (colEntryResults ds)).filter (fun r => r.column == some k) =
      colEntryResults ds (k, rules) := by
  induction cols with
  | nil => cases hmem
  | cons p ps ih =>
    rw [List.flatMap_cons, List.filter_append]
    rw [List.map_cons, List.nodup_cons] at hnodup
    rcases List.mem_cons.1 hmem with heq | htail
    · subst heq
      rw [filter_colEntryResults_self ds k rules, filter_flatMap_missing ds ps k hnodup.1,
        List.append_nil]
    · have hk : k ∈ ps.map Prod.fst := List.mem_map.2 ⟨(k, rules), htail, rfl⟩
      have hne : p.1 ≠ k := fun hpk => hnodup.1 (hpk ▸ hk)
      rw [filter_colEntryResults_ne ds p k hne, List.nil_append]
      exact ih htail hnodup.2

/-- C1: during `RuleExecutor.execute`, an exception raised by a column-level
or table-level check handler is caught and converted into a `CheckResult`
with `passed = false`, severity Error and the exception text in its message,
and execution continues: `execute` returns normally with exactly one
`CheckResult` per enabled check (plus one per absent rule-set column) — one
failing handler never aborts the run. -/
theorem handler_exception_fails_closed_and_run_continues
    (rs : RuleSet) (ds : DatasetOracle) (col_name : String) (check tcheck : Check)
    (m mt : String)
    (hc : columnCheckBody ds col_name check = .error m)
    (ht : tableCheckBody ds tcheck = .error mt) :
    _execute_column_check ds col_name check =
      { check := check
        column := some col_name
        passed := false
        actual_value := .noneV
        expected_value := .noneV
        message := "Error executing check: " ++ m
        severity := .error } ∧
    _execute_table_check ds tcheck =
      { check := tcheck
        column := none
        passed := false
        actual_value := .noneV
        expected_value := .noneV
        message := "Error executing check: " ++ mt
        severity := .error } ∧
    (execute rs ds).results.length = expectedResultCount rs ds := by
  refine ⟨?_, ?_, ?_⟩
  · unfold _execute_column_check
    rw [hc]
  · unfold _execute_table_check
    rw [ht]
  · show ((rs.table.checks.filter (fun c => c.enabled)).map (_execute_table_check ds) ++
      rs.columns.flatMap (colEntryResults ds)).length = expectedResultCount rs ds
    rw [List.length_append, List.length_map, List.length_flatMap]
    unfold expectedResultCount
    congr 1
    apply congrArg List.sum
    apply List.map_congr_left
    intro p _
    exact colEntryResults_length ds p

/-- Witness for C1: column `a`'s statistics query raises `boom` and the
row-count query raises `db down`; both become failing Error results with the
exception text, and the run still yields one result per check. -/
theorem handler_exception_fails_closed_witness :
    columnCheckBody dsBoom "a" { type := .not_null } = .error "boom" ∧
    tableCheckBody dsBoom { type := .row_count, value := .num 1, operator := ">" }
      = .error "db down" ∧
    (_execute_column_check dsBoom "a" { type := .not_null }).message
      = "Error executing check: boom" ∧
    (_execute_column_check dsBoom "a" { type := .not_null }).passed = false ∧
    (_execute_column_check dsBoom "a" { type := .not_null }).severity = Severity.error ∧
    (execute rsBoom dsBoom).results.length = expectedResultCount rsBoom dsBoom := by
  have h := handler_exception_fails_closed_and_run_continues rsBoom dsBoom "a"
    { type := .not_null } { type := .row_count, value := .num 1, operator := ">" }
    "boom" "db down" rfl rfl
  refine ⟨rfl, rfl, ?_, ?_, ?_, h.2.2⟩
  · rw [h.1]; rfl
  · rw [h.1]
  · rw [h.1]


/-- C2: a rule-set column absent from the dataset schema yields exactly one
synthesized failing `CheckResult` — severity Error, message
`Column <name> not found in dataset` — its own checks are skipped, and the
checks of every present column are still evaluated, one result per enabled
check; the run neither crashes nor aborts. -/
theorem missing_column_synthesizes_single_failure
    (rs : RuleSet) (ds : DatasetOracle) (col_name : String) (rules : ColumnRules)
    (hmem : (col_name, rules) ∈ rs.columns)
    (hnodup : (rs.columns.map Prod.fst).Nodup)
    (habs : col_name ∉ ds.columnNames) :
    (execute rs ds).results.filter (fun r => r.column == some col_name)
      = [columnNotFoundResult col_name] ∧
    (columnNotFoundResult col_name).passed = false ∧
    (columnNotFoundResult col_name).severity = Severity.error ∧
    (columnNotFoundResult col_name).message
      = "Column \x27" ++ col_name ++ "\x27 not found in dataset" ∧
    (∀ c rules2, (c, rules2) ∈ rs.columns → c ∈ ds.columnNames →
      (execute rs ds).results.filter (fun r => r.column == some c)
        = (rules2.checks.filter (fun ch => ch.enabled)).map (_execute_column_check ds c)) := by
  have hres : ∀ k : String, (execute rs ds).results.filter (fun r => r.column == some k)
      = (rs.columns.flatMap (colEntryResults ds)).filter (fun r => r.column == some k) := by
    intro k
    show (((rs.table.checks.filter (fun c => c.enabled)).map (_execute_table_check ds) ++
      rs.columns.flatMap (colEntryResults ds)).filter (fun r => r.column == some k)) = _
    rw [List.filter_append, filter_tableResults_nil, List.nil_append]
  refine ⟨?_, rfl, rfl, rfl, ?_⟩
  · rw [hres, filter_flatMap_key ds rs.columns col_name rules hmem hnodup]
    unfold colEntryResults
    rw [if_pos habs]
  · intro c rules2 hmem2 hpres
    rw [hres, filter_flatMap_key ds rs.columns c rules2 hmem2 hnodup]
    unfold colEntryResults
    rw [if_neg (by simpa using hpres)]

/-- Witness for C2: rule set over columns `missing` and `b` against a dataset
having only `b`: `missing` contributes exactly its synthesized failure, `b`'s
enabled check is still evaluated. -/
theorem missing_column_synthesizes_single_failure_witness :
    (execute rsMissingB dsOnlyB).results.filter (fun r => r.column == some "missing")
      = [columnNotFoundResult "missing"] ∧
    (execute rsMissingB dsOnlyB).results.filter (fun r => r.column == some "b")
      = (rulesB.checks.filter (fun ch => ch.enabled)).map (_execute_column_check dsOnlyB "b") := by
  have h := missing_column_synthesizes_single_failure rsMissingB dsOnlyB "missing"
    rulesMissing (by simp [rsMissingB]) (by simp [rsMissingB]) (by simp [dsOnlyB,
      DatasetOracle.columnNames, stubColumnOracle])
  exact ⟨h.1, h.2.2.2.2 "b" rulesB (by simp [rsMissingB]) (by simp [dsOnlyB,
    DatasetOracle.columnNames, stubColumnOracle])⟩

/-- C4: `ExecutionResult.quality_score` is `passed_count / total_checks * 100`
for a non-empty result list, exactly 100 on an empty result list, and exactly
0 when every result failed with severity Error. -/
theorem quality_score_formula (er : ExecutionResult) :
    (er.results = [] → er.quality_score = 100) ∧
    (er.results ≠ [] →
      er.quality_score = (er.passed_count : ℚ) / (er.total_checks : ℚ) * 100) ∧
    (er.results ≠ [] →
      (∀ r ∈ er.results, r.passed = false ∧ r.severity = Severity.error) →
      er.quality_score = 0) := by
  refine ⟨?_, ?_, ?_⟩
  · intro h
    simp [ExecutionResult.quality_score, h]
  · intro h
    rw [ExecutionResult.quality_score, if_neg (by simpa [List.isEmpty_iff] using h)]
  · intro h hall
    have hcount : ExecutionResult.passed_count er = 0 := by
      rw [ExecutionResult.passed_count, List.countP_eq_zero]
      intro r hr
      simp [(hall r hr).1]
    rw [ExecutionResult.quality_score, if_neg (by simpa [List.isEmpty_iff] using h),
      hcount]
    simp

/-- Witness for C4: an empty run scores exactly 100; a run whose single
result is a failing Error check scores exactly 0. -/
theorem quality_score_formula_witness :
    ({ ruleset := {}, source := "s", results := [] } : ExecutionResult).quality_score
      = 100 ∧
    ({ ruleset := {}, source := "s",
       results := [columnNotFoundResult "x"] } : ExecutionResult).quality_score = 0 :=
  ⟨(quality_score_formula _).1 rfl,
   (quality_score_formula _).2.2 (by simp) (by
     intro r hr
     rw [List.mem_singleton] at hr
     subst hr
     exact ⟨rfl, rfl⟩)⟩

/-- Witness for C7: a two-column two-row table with a NULL and a duplicate;
the batched path returns exactly the per-column record for column `"a"`. -/
theorem get_all_column_stats_agrees_witness :
    (get_all_column_stats
        ⟨["a", "b"], [[some (1 : ℤ), some 7], [none, some 7]]⟩
        ["a", "b"]).lookup "a" =
      some (get_column_stats ⟨["a", "b"], [[some (1 : ℤ), some 7], [none, some 7]]⟩ "a") :=
  get_all_column_stats_agrees _ ["a", "b"] "a" (by simp)

end DuckGuard
